import Mathlib

/-!
Verification of the multi-SNS viewer renderer (panel arrangement, zoom and
volume math, layout validation).  The numeric code is embedded over `ℚ`;
JavaScript runtime values feeding the validators are embedded as `JSValue`.
All definitions follow `src/renderer/utils.ts` and `src/renderer/renderer.ts`.
-/

namespace MultiSnsViewer

/-! ## Constants (utils.ts lines 6-34) -/

def DESKTOP_VIEWPORT_WIDTH : ℚ := 1280
def DESKTOP_VIEWPORT_HEIGHT : ℚ := 720
def MOBILE_VIEWPORT_WIDTH : ℚ := 393
def MOBILE_VIEWPORT_HEIGHT : ℚ := 852

def MOBILE_USER_AGENT : String :=
  "Mozilla/5.0 (iPhone; CPU iPhone OS 17_0 like Mac OS X) AppleWebKit/605.1.15 (KHTML, like Gecko) Version/17.0 Mobile/15E148 Safari/604.1"

def ZOOM_STEP : ℚ := 0.1
def ZOOM_MIN : ℚ := 0.5
def ZOOM_MAX : ℚ := 2.0
def ZOOM_DEFAULT : ℚ := 1.0

def VOLUME_STEP : ℚ := 0.1
def VOLUME_MIN : ℚ := 0.0
def VOLUME_MAX : ℚ := 1.0
def VOLUME_DEFAULT : ℚ := 0.5

/-! ## JavaScript values

`isValidLayoutConfig` receives an arbitrary value read back from the
settings store, so we embed the JavaScript value universe the renderer can
observe there: primitives, arrays and plain objects (an object is a list of
string-keyed fields). -/

inductive JSValue where
  | undefined
  | null
  | boolean (b : Bool)
  | number (q : ℚ)
  | string (s : String)
  | array (elems : List JSValue)
  | object (fields : List (String × JSValue))

/-- JavaScript truthiness, as used by `!config`. -/
def jsTruthy : JSValue → Bool
  | .undefined => false
  | .null => false
  | .boolean b => b
  | .number q => !(q == 0)
  | .string s => !(s == "")
  | .array _ => true
  | .object _ => true

/-- The `typeof` operator (arrays and `null` are both "object"). -/
def jsTypeof : JSValue → String
  | .undefined => "undefined"
  | .null => "object"
  | .boolean _ => "boolean"
  | .number _ => "number"
  | .string _ => "string"
  | .array _ => "object"
  | .object _ => "object"

/-- Property access `v.k`: defined fields of plain objects, `undefined`
otherwise (the array values stored under `slots` carry no named fields). -/
def jsGetField (v : JSValue) (k : String) : JSValue :=
  match v with
  | .object fields => (fields.lookup k).getD .undefined
  | _ => .undefined

/-- Embeds `Array.isArray`. -/
def jsIsArray : JSValue → Bool
  | .array _ => true
  | _ => false

/-! ## Zoom calculation (utils.ts lines 47-81) -/

structure ZoomCalculation where
  zoomFactor : ℚ
  clampedZoom : ℚ
deriving DecidableEq

def calculateDesktopZoom (panelWidth panelHeight : ℚ) : ZoomCalculation :=
  let zoomByWidth := panelWidth / DESKTOP_VIEWPORT_WIDTH
  let zoomByHeight := panelHeight / DESKTOP_VIEWPORT_HEIGHT
  let zoomFactor := min zoomByWidth zoomByHeight
  let clampedZoom := max 0.5 (min 2.0 zoomFactor)
  { zoomFactor := zoomFactor, clampedZoom := clampedZoom }

def calculateMobileZoom (panelWidth panelHeight : ℚ) : ZoomCalculation :=
  let zoomByWidth := panelWidth / MOBILE_VIEWPORT_WIDTH
  let zoomByHeight := panelHeight / MOBILE_VIEWPORT_HEIGHT
  let zoomFactor := min zoomByWidth zoomByHeight
  let clampedZoom := max 0.25 (min 1.0 zoomFactor)
  { zoomFactor := zoomFactor, clampedZoom := clampedZoom }

/-! ## Layout validation (utils.ts lines 88-94) -/

def isValidLayoutConfig (config : JSValue) : Bool :=
  if !(jsTruthy config) || !(jsTypeof config == "object") then false
  else
    let slots := jsGetField config "slots"
    if !(jsIsArray slots) then false
    else
      match slots with
      | .array xs => if xs.length == 0 then false
                     else xs.all (fun slot => jsTypeof slot == "string")
      | _ => false

/-! ## Clamp and percent formatting (utils.ts lines 149-197) -/

def clampZoom (zoom : ℚ) : ℚ :=
  max ZOOM_MIN (min ZOOM_MAX zoom)

def clampVolume (volume : ℚ) : ℚ :=
  max VOLUME_MIN (min VOLUME_MAX volume)

/-- Embeds `Math.round`: round half toward positive infinity (round-half-up). -/
def mathRound (q : ℚ) : ℤ := ⌊q + 1 / 2⌋

def formatZoomPercent (zoom : ℚ) : String :=
  toString (mathRound (zoom * 100)) ++ "%"

def formatVolumePercent (volume : ℚ) : String :=
  toString (mathRound (volume * 100)) ++ "%"

/-! ## Global zoom / volume state transitions (renderer.ts lines 580-720) -/

/-- Embeds `restoreZoomConfig`: the persisted value replaces the current global
zoom only when it is a number, clamped into range. -/
def restoreZoomConfig (globalZoom : ℚ) (config : JSValue) : ℚ :=
  match config with
  | .number n => clampZoom n
  | _ => globalZoom

/-- Embeds `changeGlobalZoom`: step the global zoom and re-clamp. -/
def changeGlobalZoom (globalZoom delta : ℚ) : ℚ :=
  clampZoom (globalZoom + delta)

/-- Embeds `restoreVolumeConfig`: the persisted value replaces the current global
volume only when it is a number, clamped into range. -/
def restoreVolumeConfig (globalVolume : ℚ) (config : JSValue) : ℚ :=
  match config with
  | .number n => clampVolume n
  | _ => globalVolume

/-- Embeds `changeGlobalVolume`: step the global volume and re-clamp. -/
def changeGlobalVolume (globalVolume delta : ℚ) : ℚ :=
  clampVolume (globalVolume + delta)

/-! ## Panel-arrangement engine (renderer.ts lines 111-312, 416-477)

A panel is a DOM element carrying a `data-sns` attribute, the panel role
classes (`main-panel` / `secondary-panel` / `sub-panel`) and a webview
child carrying the mode classes (`webview-desktop` / `webview-mobile`) and
a user-agent.  The document keeps the panels in two containers,
`.main-view` and `.sub-views`; child order is list order. -/

structure Panel where
  sns : String
  clsMain : Bool
  clsSecondary : Bool
  clsSub : Bool
  wvDesktop : Bool
  wvMobile : Bool
  userAgent : String
deriving DecidableEq, Repr

structure Dom where
  isPinned : Bool
  mainView : List Panel
  subViews : List Panel
deriving DecidableEq, Repr

def defaultPanel : Panel :=
  { sns := "", clsMain := false, clsSecondary := false, clsSub := false,
    wvDesktop := false, wvMobile := false, userAgent := "" }

/-- Embeds `panel.classList.remove(c)` for the three panel role classes. -/
def panelClassListRemove (p : Panel) (c : String) : Panel :=
  if c == "main-panel" then { p with clsMain := false }
  else if c == "secondary-panel" then { p with clsSecondary := false }
  else if c == "sub-panel" then { p with clsSub := false }
  else p

/-- Embeds `panel.classList.add(c)` for the three panel role classes. -/
def panelClassListAdd (p : Panel) (c : String) : Panel :=
  if c == "main-panel" then { p with clsMain := true }
  else if c == "secondary-panel" then { p with clsSecondary := true }
  else if c == "sub-panel" then { p with clsSub := true }
  else p

/-- Embeds `webview.classList.remove(c)` for the two webview mode classes. -/
def webviewClassListRemove (p : Panel) (c : String) : Panel :=
  if c == "webview-desktop" then { p with wvDesktop := false }
  else if c == "webview-mobile" then { p with wvMobile := false }
  else p

/-- Embeds `webview.classList.add(c)` for the two webview mode classes. -/
def webviewClassListAdd (p : Panel) (c : String) : Panel :=
  if c == "webview-desktop" then { p with wvDesktop := true }
  else if c == "webview-mobile" then { p with wvMobile := true }
  else p

/-- Embeds `webview.setUserAgent(ua)`. -/
def setUserAgent (p : Panel) (ua : String) : Panel :=
  { p with userAgent := ua }

/-- Embeds `parent.insertBefore(node, parent.children[i])`: insert before the
child at index `i` (append when the index is past the end, matching the
explicit bounds check the renderer performs before using a stale index). -/
def insertBeforeIdx (l : List Panel) (i : Nat) (p : Panel) : List Panel :=
  l.take i ++ p :: l.drop i

/-! utils.ts lines 101-123: slot-index → panel type → class names. -/

inductive PanelType where
  | main
  | secondary
  | sub
deriving DecidableEq

def getPanelTypeByIndex (index : Nat) : PanelType :=
  if index == 0 then .main
  else if index == 1 then .secondary
  else .sub

def getWebviewClassByPanelType (panelType : PanelType) : String :=
  if panelType = .main then "webview-desktop" else "webview-mobile"

def panelTypeName (panelType : PanelType) : String :=
  match panelType with
  | .main => "main"
  | .secondary => "secondary"
  | .sub => "sub"

def getPanelClassByType (panelType : PanelType) : String :=
  panelTypeName panelType ++ "-panel"

/-- Embeds `saveLayout` (renderer.ts lines 235-254): derives the persisted
arrangement snapshot from the live DOM: the `.main-panel` and
`.secondary-panel` found in `.main-view` (empty string when absent),
followed by every `.sub-panel` in `.sub-views` in display order. -/
def currentArrangement (dom : Dom) : List String :=
  let mainSns :=
    match dom.mainView.find? (fun p => p.clsMain) with
    | some p => p.sns
    | none => ""
  let secondarySns :=
    match dom.mainView.find? (fun p => p.clsSecondary) with
    | some p => p.sns
    | none => ""
  mainSns :: secondarySns :: (dom.subViews.filter (fun p => p.clsSub)).map (fun p => p.sns)

/-- Embeds `swapPanels` (renderer.ts lines 416-477) with the clicked sub panel
given by its index in `.sub-views`.  No-op while pinned or without a
current `.main-panel`; otherwise swaps webview mode classes and
user-agents, swaps the panel role classes, moves the clicked panel into
`.main-view` before the `.secondary-panel` (appending when there is
none), and moves the former main panel into `.sub-views` at the clicked
panel's former index (appending when that index is stale). -/
def swapPanels (dom : Dom) (clickedIdx : Nat) : Dom :=
  if dom.isPinned then dom
  else
    match dom.mainView.findIdx? (fun p => p.clsMain) with
    | none => dom
    | some mIdx =>
      let currentMainPanel := dom.mainView.getD mIdx defaultPanel
      let clickedSubPanel := dom.subViews.getD clickedIdx defaultPanel
      -- main webview: desktop → mobile, mobile user-agent
      let mainP1 := setUserAgent
        (webviewClassListAdd (webviewClassListRemove currentMainPanel "webview-desktop")
          "webview-mobile") MOBILE_USER_AGENT
      -- sub webview: mobile → desktop, default user-agent
      let subP1 := setUserAgent
        (webviewClassListAdd (webviewClassListRemove clickedSubPanel "webview-mobile")
          "webview-desktop") ""
      -- panel role classes
      let mainP2 := panelClassListAdd (panelClassListRemove mainP1 "main-panel") "sub-panel"
      let subP2 := panelClassListAdd (panelClassListRemove subP1 "sub-panel") "main-panel"
      -- in-place class mutations
      let mainView1 := dom.mainView.set mIdx mainP2
      let subViews1 := dom.subViews.set clickedIdx subP2
      let subPanelIndex := clickedIdx
      let secondaryIdx := mainView1.findIdx? (fun p => p.clsSecondary)
      -- move the clicked panel into the main view
      let subViews2 := subViews1.eraseIdx clickedIdx
      let mainView2 :=
        match secondaryIdx with
        | some sIdx => insertBeforeIdx mainView1 sIdx subP2
        | none => mainView1 ++ [subP2]
      -- move the former main panel into the sub views
      let mIdx2 :=
        match secondaryIdx with
        | some sIdx => if sIdx ≤ mIdx then mIdx + 1 else mIdx
        | none => mIdx
      let mainView3 := mainView2.eraseIdx mIdx2
      let subViews3 :=
        if subPanelIndex < subViews2.length then insertBeforeIdx subViews2 subPanelIndex mainP2
        else subViews2 ++ [mainP2]
      { dom with mainView := mainView3, subViews := subViews3 }

/-- The click handler dispatches a header click to `swapPanels` with the
closest `.sub-panel`; naming a site id selects the sub panel currently
holding that site.  When no sub panel holds it, no swap fires. -/
def swapMainWithSub (dom : Dom) (snsId : String) : Dom :=
  match dom.subViews.findIdx? (fun p => p.clsSub && p.sns == snsId) with
  | none => dom
  | some i => swapPanels dom i

/-! `restoreLayout` (renderer.ts lines 259-312). -/

/-- Strip the validated `slots` array back to plain strings. -/
def layoutSlots (config : JSValue) : List String :=
  match config with
  | .object fields =>
    match fields.lookup "slots" with
    | some (.array xs) =>
      xs.map (fun v => match v with | .string str => str | _ => "")
    | _ => []
  | _ => []

/-- Class reset applied to every panel in the sns → panel map (the map
holds exactly the panels with a non-empty `data-sns`; all reachable
states give distinct panels distinct sns values, so the map is modelled
as lookup by sns). -/
def resetIfNamed (p : Panel) : Panel :=
  if p.sns == "" then p
  else
    let p1 := panelClassListRemove (panelClassListRemove
      (panelClassListRemove p "main-panel") "secondary-panel") "sub-panel"
    webviewClassListRemove (webviewClassListRemove p1 "webview-desktop") "webview-mobile"

/-- Take the first panel with the given sns out of the document
(`.main-view` first, then `.sub-views`). -/
def removeFirstBySns (mv sv : List Panel) (sns : String) :
    Option (Panel × List Panel × List Panel) :=
  match mv.findIdx? (fun p => p.sns == sns) with
  | some i => some (mv.getD i defaultPanel, mv.eraseIdx i, sv)
  | none =>
    match sv.findIdx? (fun p => p.sns == sns) with
    | some i => some (sv.getD i defaultPanel, mv, sv.eraseIdx i)
    | none => none

/-- One iteration of the `config.slots.forEach((sns, index) => ...)` body:
look the panel up by sns (skipping unknown sites and the empty string,
which the map never holds), add the role and webview classes derived from
the slot index, and move the panel to its container: main panels are
prepended to `.main-view`, secondary panels appended to `.main-view`, sub
panels appended to `.sub-views`. -/
def applyLayoutSlot (st : List Panel × List Panel) (entry : Nat × String) :
    List Panel × List Panel :=
  let (index, sns) := entry
  if sns == "" then st
  else
    match removeFirstBySns st.1 st.2 sns with
    | none => st
    | some (panel, mv, sv) =>
      let panelType := getPanelTypeByIndex index
      let panel1 := panelClassListAdd panel (getPanelClassByType panelType)
      let panel2 := webviewClassListAdd panel1 (getWebviewClassByPanelType panelType)
      match panelType with
      | .main => (panel2 :: mv, sv)
      | .secondary => (mv ++ [panel2], sv)
      | .sub => (mv, sv ++ [panel2])

/-- Embeds `restoreLayout`: a persisted value that fails validation is ignored
outright; a valid one resets every named panel's classes and reassigns
slots in order. -/
def restoreLayout (dom : Dom) (config : JSValue) : Dom :=
  if !(isValidLayoutConfig config) then dom
  else
    let slots := layoutSlots config
    let mv0 := dom.mainView.map resetIfNamed
    let sv0 := dom.subViews.map resetIfNamed
    let st := slots.enum.foldl applyLayoutSlot (mv0, sv0)
    { dom with mainView := st.1, subViews := st.2 }

/-- A Main panel in its standard shape: Desktop mode, default user-agent. -/
def mkMainPanel (sns : String) : Panel :=
  { sns := sns, clsMain := true, clsSecondary := false, clsSub := false,
    wvDesktop := true, wvMobile := false, userAgent := "" }

/-- A Secondary panel in its standard shape: Mobile mode, mobile user-agent. -/
def mkSecondaryPanel (sns : String) : Panel :=
  { sns := sns, clsMain := false, clsSecondary := true, clsSub := false,
    wvDesktop := false, wvMobile := true, userAgent := MOBILE_USER_AGENT }

/-- A Sub panel in its standard shape: Mobile mode, mobile user-agent. -/
def mkSubPanel (sns : String) : Panel :=
  { sns := sns, clsMain := false, clsSecondary := false, clsSub := true,
    wvDesktop := false, wvMobile := true, userAgent := MOBILE_USER_AGENT }

/-- The built-in default arrangement from index.html: youtube Main,
tiktok Secondary, x / instagram / threads Sub. -/
def builtinDom : Dom :=
  { isPinned := false,
    mainView := [mkMainPanel "youtube", mkSecondaryPanel "tiktok"],
    subViews := [mkSubPanel "x", mkSubPanel "instagram", mkSubPanel "threads"] }


/-- The clicked Sub panel as it lands in Main position. -/
def swappedToMain (x : Panel) : Panel :=
  { x with
    clsMain := true, clsSub := false, wvDesktop := true, wvMobile := false,
    userAgent := "" }

/-- The former Main panel as it lands in Sub position. -/
def swappedToSub (m : Panel) : Panel :=
  { m with
    clsMain := false, clsSub := true, wvDesktop := false, wvMobile := true,
    userAgent := MOBILE_USER_AGENT }

/-! ## Layout-validator claims -/

/-- A value's `typeof` is "string" exactly when it is a string. -/
lemma jsTypeof_eq_string_iff (s : JSValue) :
    (jsTypeof s == "string") = true ↔ ∃ str, s = JSValue.string str := by
  cases s <;> simp [jsTypeof]

/-- On a plain object the validator reduces to the shape of the `slots`
field. -/
lemma isValidLayoutConfig_object (fields : List (String × JSValue)) :
    isValidLayoutConfig (.object fields) =
      match fields.lookup "slots" with
      | some (.array xs) =>
          if xs.length == 0 then false
          else xs.all (fun slot => jsTypeof slot == "string")
      | _ => false := by
  rcases h : fields.lookup "slots" with _ | v
  · simp [isValidLayoutConfig, jsTruthy, jsTypeof, jsGetField, jsIsArray, h]
  · cases v <;> simp [isValidLayoutConfig, jsTruthy, jsTypeof, jsGetField, jsIsArray, h]

/-- C4: the arrangement validator returns true exactly for records whose
`slots` field is a non-empty array of strings; it returns false for null,
a missing or non-array `slots`, the empty array, and any non-string
element, and true for {slots:["a","b"]}. -/
theorem isValidLayoutConfig_characterization :
    (∀ v : JSValue, isValidLayoutConfig v = true ↔
      ∃ fields xs, v = JSValue.object fields ∧
        fields.lookup "slots" = some (JSValue.array xs) ∧ xs ≠ [] ∧
        ∀ s ∈ xs, ∃ str, s = JSValue.string str) ∧
    isValidLayoutConfig (.object [("slots", .array [.string "a", .string "b"])]) = true ∧
    isValidLayoutConfig .null = false ∧
    isValidLayoutConfig (.object []) = false ∧
    isValidLayoutConfig (.object [("slots", .string "a")]) = false ∧
    isValidLayoutConfig (.object [("slots", .array [])]) = false ∧
    isValidLayoutConfig (.object [("slots", .array [.string "a", .number 1])]) = false := by
  refine ⟨?_, by decide, by decide, by decide, by decide, by decide, by decide⟩
  intro v
  cases v with
  | object fields =>
    rw [isValidLayoutConfig_object]
    rcases h : fields.lookup "slots" with _ | v'
    · constructor
      · intro hf; cases hf
      · rintro ⟨f, xs, hv, hl, -, -⟩
        cases hv
        rw [h] at hl; cases hl
    · cases v' with
      | array xs =>
        constructor
        · intro hval
          refine ⟨fields, xs, rfl, h, ?_, ?_⟩
          · intro hnil
            subst hnil
            simp at hval
          · intro s hs
            rw [← jsTypeof_eq_string_iff]
            by_cases hnil : xs.length == 0
            · simp [hnil] at hval
            · simp only [hnil, if_false] at hval
              exact List.all_eq_true.mp hval s hs
        · rintro ⟨f, xs', hv, hl, hnil, hstr⟩
          cases hv
          rw [h] at hl
          cases hl
          have hlen : (xs.length == 0) = false := by
            simp only [beq_eq_false_iff_ne, ne_eq, List.length_eq_zero]
            exact hnil
          show (if xs.length == 0 then false
                else xs.all fun slot => jsTypeof slot == "string") = true
          simp only [hlen, Bool.false_eq_true, if_false]
          exact List.all_eq_true.mpr fun s hs => (jsTypeof_eq_string_iff s).mpr (hstr s hs)
      | undefined =>
        constructor
        · intro hf; cases hf
        · rintro ⟨f, xs, hv, hl, -, -⟩; cases hv; rw [h] at hl; cases hl
      | null =>
        constructor
        · intro hf; cases hf
        · rintro ⟨f, xs, hv, hl, -, -⟩; cases hv; rw [h] at hl; cases hl
      | boolean b =>
        constructor
        · intro hf; cases hf
        · rintro ⟨f, xs, hv, hl, -, -⟩; cases hv; rw [h] at hl; cases hl
      | number q =>
        constructor
        · intro hf; cases hf
        · rintro ⟨f, xs, hv, hl, -, -⟩; cases hv; rw [h] at hl; cases hl
      | string s =>
        constructor
        · intro hf; cases hf
        · rintro ⟨f, xs, hv, hl, -, -⟩; cases hv; rw [h] at hl; cases hl
      | object fs =>
        constructor
        · intro hf; cases hf
        · rintro ⟨f, xs, hv, hl, -, -⟩; cases hv; rw [h] at hl; cases hl
  | undefined => simp [isValidLayoutConfig, jsTruthy]
  | null => simp [isValidLayoutConfig, jsTruthy]
  | boolean b => cases b <;> simp [isValidLayoutConfig, jsTruthy, jsTypeof]
  | number q => simp [isValidLayoutConfig, jsTruthy, jsTypeof]
  | string s => simp [isValidLayoutConfig, jsTruthy, jsTypeof]
  | array elems => simp [isValidLayoutConfig, jsTruthy, jsTypeof, jsGetField, jsIsArray]

/-! ## Numeric claims -/

/-- C1: for every positive panel width and height, the Desktop zoom
calculation returns a clamped factor in [0.5, 2.0] and the Mobile zoom
calculation returns a clamped factor in [0.25, 1.0]. -/
theorem clampedZoom_in_range (w h : ℚ) (hw : 0 < w) (hh : 0 < h) :
    (0.5 ≤ (calculateDesktopZoom w h).clampedZoom ∧
      (calculateDesktopZoom w h).clampedZoom ≤ 2.0) ∧
    (0.25 ≤ (calculateMobileZoom w h).clampedZoom ∧
      (calculateMobileZoom w h).clampedZoom ≤ 1.0) := by
  refine ⟨⟨le_max_left _ _, ?_⟩, ⟨le_max_left _ _, ?_⟩⟩ <;>
    exact max_le (by norm_num) (min_le_left _ _)

/-- Witness for C1 at the concrete panel size 100 × 100. -/
theorem clampedZoom_in_range_witness :
    0.5 ≤ (calculateDesktopZoom 100 100).clampedZoom ∧
      (calculateDesktopZoom 100 100).clampedZoom ≤ 2.0 :=
  (clampedZoom_in_range 100 100 (by norm_num) (by norm_num)).1

/-- C5: the raw zoom factor is the minimum of the two axis ratios against
the mode's reference viewport, (1280, 720) for Desktop and (393, 852) for
Mobile; at (1280, 720) the Desktop raw and clamped factors are 1. -/
theorem zoomFactor_is_min_of_axis_ratios :
    (∀ w h : ℚ, (calculateDesktopZoom w h).zoomFactor = min (w / 1280) (h / 720)) ∧
    (∀ w h : ℚ, (calculateMobileZoom w h).zoomFactor = min (w / 393) (h / 852)) ∧
    (calculateDesktopZoom 1280 720).zoomFactor = 1 ∧
    (calculateDesktopZoom 1280 720).clampedZoom = 1 := by
  refine ⟨fun w h => rfl, fun w h => rfl, ?_, ?_⟩ <;>
    norm_num [calculateDesktopZoom, DESKTOP_VIEWPORT_WIDTH, DESKTOP_VIEWPORT_HEIGHT,
      min_def, max_def]

/-- C6 counterexample: at panel size (-1280, 720) the Desktop raw zoom
factor is -1, not the 0 the claim requires. -/
theorem negative_dims_raw_factor_counterexample :
    (calculateDesktopZoom (-1280) 720).zoomFactor = -1 ∧
    (calculateDesktopZoom (-1280) 720).zoomFactor ≠ 0 := by
  constructor <;>
    norm_num [calculateDesktopZoom, DESKTOP_VIEWPORT_WIDTH, DESKTOP_VIEWPORT_HEIGHT, min_def]

/-- C6 amended: for every zero or negative panel width or height the raw
zoom factor is ≤ 0 (not necessarily 0), and it is clamped to the mode's
minimum (0.5 for Desktop, 0.25 for Mobile); the calculation is total, so
no division error can occur. -/
theorem nonpositive_dims_clamp_to_min (w h : ℚ) (hwh : w ≤ 0 ∨ h ≤ 0) :
    ((calculateDesktopZoom w h).zoomFactor ≤ 0 ∧
      (calculateDesktopZoom w h).clampedZoom = 0.5) ∧
    ((calculateMobileZoom w h).zoomFactor ≤ 0 ∧
      (calculateMobileZoom w h).clampedZoom = 0.25) := by
  have hd : min (w / DESKTOP_VIEWPORT_WIDTH) (h / DESKTOP_VIEWPORT_HEIGHT) ≤ 0 := by
    rcases hwh with hw | hh
    · refine le_trans (min_le_left _ _) ?_
      rw [DESKTOP_VIEWPORT_WIDTH]; linarith
    · refine le_trans (min_le_right _ _) ?_
      rw [DESKTOP_VIEWPORT_HEIGHT]; linarith
  have hm : min (w / MOBILE_VIEWPORT_WIDTH) (h / MOBILE_VIEWPORT_HEIGHT) ≤ 0 := by
    rcases hwh with hw | hh
    · refine le_trans (min_le_left _ _) ?_
      rw [MOBILE_VIEWPORT_WIDTH]; linarith
    · refine le_trans (min_le_right _ _) ?_
      rw [MOBILE_VIEWPORT_HEIGHT]; linarith
  refine ⟨⟨hd, ?_⟩, ⟨hm, ?_⟩⟩
  · show max 0.5 (min 2.0 (min (w / DESKTOP_VIEWPORT_WIDTH) (h / DESKTOP_VIEWPORT_HEIGHT))) = 0.5
    rw [min_eq_right (by linarith : min (w / DESKTOP_VIEWPORT_WIDTH) (h / DESKTOP_VIEWPORT_HEIGHT) ≤ 2.0)]
    exact max_eq_left (by linarith)
  · show max 0.25 (min 1.0 (min (w / MOBILE_VIEWPORT_WIDTH) (h / MOBILE_VIEWPORT_HEIGHT))) = 0.25
    rw [min_eq_right (by linarith : min (w / MOBILE_VIEWPORT_WIDTH) (h / MOBILE_VIEWPORT_HEIGHT) ≤ 1.0)]
    exact max_eq_left (by linarith)

/-- Witness for the amended C6 at panel size (0, 720). -/
theorem nonpositive_dims_clamp_to_min_witness :
    (calculateDesktopZoom 0 720).zoomFactor ≤ 0 ∧
      (calculateDesktopZoom 0 720).clampedZoom = 0.5 :=
  (nonpositive_dims_clamp_to_min 0 720 (Or.inl (le_refl 0))).1

/-- C9: percent formatting appends "%" to `x * 100` rounded half-up;
`mathRound` is exactly round-half-up (the unique integer n with
n - 1/2 ≤ x < n + 1/2); the concrete examples evaluate to "56%" and "0%". -/
theorem formatPercent_round_half_up :
    (∀ x : ℚ, formatZoomPercent x = toString (mathRound (x * 100)) ++ "%") ∧
    (∀ x : ℚ, formatVolumePercent x = toString (mathRound (x * 100)) ++ "%") ∧
    (∀ (x : ℚ) (n : ℤ), mathRound x = n ↔ (n : ℚ) - 1 / 2 ≤ x ∧ x < (n : ℚ) + 1 / 2) ∧
    formatZoomPercent 0.555 = "56%" ∧ formatZoomPercent 0 = "0%" ∧
    formatVolumePercent 0.555 = "56%" ∧ formatVolumePercent 0 = "0%" := by
  have hchar : ∀ (x : ℚ) (n : ℤ),
      mathRound x = n ↔ (n : ℚ) - 1 / 2 ≤ x ∧ x < (n : ℚ) + 1 / 2 := by
    intro x n
    rw [mathRound, Int.floor_eq_iff]
    constructor
    · rintro ⟨a, b⟩; constructor <;> push_cast at * <;> linarith
    · rintro ⟨a, b⟩; constructor <;> push_cast at * <;> linarith
  have h56 : mathRound (0.555 * 100) = 56 := by
    rw [hchar]; norm_num
  have h0 : mathRound ((0 : ℚ) * 100) = 0 := by
    rw [hchar]; norm_num
  refine ⟨fun x => rfl, fun x => rfl, hchar, ?_, ?_, ?_, ?_⟩ <;>
    simp only [formatZoomPercent, formatVolumePercent, h56, h0] <;> rfl

/-- C10: every restore or step of the global controls lands in range:
stepping re-clamps into [ZOOM_MIN, ZOOM_MAX] / [VOLUME_MIN, VOLUME_MAX],
restoring clamps persisted numbers into range and ignores non-number
persisted values, keeping the current (default) value. -/
theorem globalControls_in_range :
    (∀ g d : ℚ, ZOOM_MIN ≤ changeGlobalZoom g d ∧ changeGlobalZoom g d ≤ ZOOM_MAX) ∧
    (∀ v d : ℚ, VOLUME_MIN ≤ changeGlobalVolume v d ∧ changeGlobalVolume v d ≤ VOLUME_MAX) ∧
    (∀ g n : ℚ, restoreZoomConfig g (.number n) = clampZoom n ∧
      ZOOM_MIN ≤ clampZoom n ∧ clampZoom n ≤ ZOOM_MAX) ∧
    (∀ (g : ℚ) (c : JSValue), (∀ n : ℚ, c ≠ .number n) → restoreZoomConfig g c = g) ∧
    (∀ v n : ℚ, restoreVolumeConfig v (.number n) = clampVolume n ∧
      VOLUME_MIN ≤ clampVolume n ∧ clampVolume n ≤ VOLUME_MAX) ∧
    (∀ (v : ℚ) (c : JSValue), (∀ n : ℚ, c ≠ .number n) → restoreVolumeConfig v c = v) := by
  have hz : ∀ x : ℚ, ZOOM_MIN ≤ clampZoom x ∧ clampZoom x ≤ ZOOM_MAX := by
    intro x
    exact ⟨le_max_left _ _, max_le (by norm_num [ZOOM_MIN, ZOOM_MAX]) (min_le_left _ _)⟩
  have hv : ∀ x : ℚ, VOLUME_MIN ≤ clampVolume x ∧ clampVolume x ≤ VOLUME_MAX := by
    intro x
    exact ⟨le_max_left _ _, max_le (by norm_num [VOLUME_MIN, VOLUME_MAX]) (min_le_left _ _)⟩
  refine ⟨fun g d => hz _, fun v d => hv _, fun g n => ⟨rfl, hz n⟩, ?_, fun v n => ⟨rfl, hv n⟩, ?_⟩
  · intro g c hc
    cases c with
    | number n => exact absurd rfl (hc n)
    | undefined => rfl
    | null => rfl
    | boolean b => rfl
    | string s => rfl
    | array xs => rfl
    | object fs => rfl
  · intro v c hc
    cases c with
    | number n => exact absurd rfl (hc n)
    | undefined => rfl
    | null => rfl
    | boolean b => rfl
    | string s => rfl
    | array xs => rfl
    | object fs => rfl

/-- Witness for C10 at concrete inputs: restoring a non-number keeps the
defaults 1.0 and 0.5. -/
theorem globalControls_in_range_witness :
    restoreZoomConfig ZOOM_DEFAULT (.string "bad") = ZOOM_DEFAULT ∧
    restoreVolumeConfig VOLUME_DEFAULT .null = VOLUME_DEFAULT :=
  ⟨globalControls_in_range.2.2.2.1 ZOOM_DEFAULT (.string "bad")
      (fun n h => JSValue.noConfusion h),
    globalControls_in_range.2.2.2.2.2 VOLUME_DEFAULT .null
      (fun n h => JSValue.noConfusion h)⟩


/-! ## Arrangement-engine claims -/

/-- C2: starting from the built-in arrangement
["youtube","tiktok","x","instagram","threads"], swap-main-with-sub on "x"
yields the snapshot ["x","tiktok","youtube","instagram","threads"]: the
former Main takes the swapped sub's former index, the swapped sub becomes
Main, and Secondary and the other subs are unchanged. -/
theorem swap_x_end_to_end :
    currentArrangement builtinDom = ["youtube", "tiktok", "x", "instagram", "threads"] ∧
    currentArrangement (swapMainWithSub builtinDom "x")
      = ["x", "tiktok", "youtube", "instagram", "threads"] := by
  decide

/-- C3: while pinned, swap-main-with-sub on any site is a silent no-op:
the whole document state, hence the arrangement snapshot and every
panel's slot assignment, is unchanged. -/
theorem pinned_swap_is_noop (dom : Dom) (snsId : String) (hp : dom.isPinned = true) :
    swapMainWithSub dom snsId = dom ∧
    currentArrangement (swapMainWithSub dom snsId) = currentArrangement dom := by
  have h : swapMainWithSub dom snsId = dom := by
    rw [swapMainWithSub]
    cases hf : dom.subViews.findIdx? (fun p => p.clsSub && p.sns == snsId) with
    | none => rfl
    | some i =>
      simp only [swapPanels, hp, if_true]
  exact ⟨h, by rw [h]⟩

/-- Witness for C3: pinned built-in arrangement, swapping "x". -/
theorem pinned_swap_is_noop_witness :
    swapMainWithSub { builtinDom with isPinned := true } "x"
      = { builtinDom with isPinned := true } :=
  (pinned_swap_is_noop { builtinDom with isPinned := true } "x" rfl).1

/-- C7: restoring a persisted layout value that fails structural
validation leaves the document (hence every panel's slot assignment)
unchanged; the operation is total, so it never throws. -/
theorem restoreLayout_invalid_is_noop (dom : Dom) (config : JSValue)
    (h : isValidLayoutConfig config = false) :
    restoreLayout dom config = dom := by
  rw [restoreLayout, h]
  rfl

/-- Witness for C7: restoring a persisted null on the built-in
arrangement. -/
theorem restoreLayout_invalid_is_noop_witness :
    restoreLayout builtinDom .null = builtinDom :=
  restoreLayout_invalid_is_noop builtinDom .null (by decide)

/-! ## Double-swap behaviour (C8) -/

lemma findIdx?_eq_none_of_all_false (p : Panel → Bool) (l : List Panel)
    (h : ∀ a ∈ l, p a = false) : l.findIdx? p = none :=
  List.findIdx?_eq_none_iff.mpr h

lemma findIdx?_append_cons (p : Panel → Bool) (L R : List Panel) (x : Panel)
    (hL : ∀ a ∈ L, p a = false) (hx : p x = true) :
    (L ++ x :: R).findIdx? p = some L.length := by
  rw [List.findIdx?_append, List.findIdx?_eq_none_iff.mpr hL, List.findIdx?_cons, hx]
  simp

lemma getD_append_cons (L R : List Panel) (x d : Panel) :
    (L ++ x :: R).getD L.length d = x := by
  induction L with
  | nil => rfl
  | cons a t ih => simpa using ih

lemma set_append_cons (L R : List Panel) (x y : Panel) :
    (L ++ x :: R).set L.length y = L ++ y :: R := by
  induction L with
  | nil => rfl
  | cons a t ih => simpa using ih

lemma eraseIdx_append_cons (L R : List Panel) (x : Panel) :
    (L ++ x :: R).eraseIdx L.length = L ++ R := by
  induction L with
  | nil => rfl
  | cons a t ih => simpa using ih

lemma insertBeforeIdx_append (L R : List Panel) (a : Panel) :
    insertBeforeIdx (L ++ R) L.length a = L ++ a :: R := by
  rw [insertBeforeIdx, List.take_left, List.drop_left]

lemma subViews_reinsert (L R : List Panel) (a : Panel) :
    (if L.length < (L ++ R).length then insertBeforeIdx (L ++ R) L.length a
     else (L ++ R) ++ [a]) = L ++ a :: R := by
  cases R with
  | nil => simp
  | cons r T =>
    rw [if_pos (by simp), insertBeforeIdx_append]

/-- The webview/user-agent/role-class mutation chain applied to the former
Main panel collapses to `swappedToSub`. -/
lemma mainSwapped_eq (m : Panel) :
    panelClassListAdd (panelClassListRemove (setUserAgent (webviewClassListAdd
      (webviewClassListRemove m "webview-desktop") "webview-mobile")
      MOBILE_USER_AGENT) "main-panel") "sub-panel" = swappedToSub m := rfl

/-- The mutation chain applied to the clicked Sub panel collapses to
`swappedToMain`. -/
lemma subSwapped_eq (x : Panel) :
    panelClassListAdd (panelClassListRemove (setUserAgent (webviewClassListAdd
      (webviewClassListRemove x "webview-mobile") "webview-desktop")
      "") "sub-panel") "main-panel" = swappedToMain x := rfl

lemma swapMainWithSub_std (m s x : Panel) (L R : List Panel)
    (hmMain : m.clsMain = true) (hmSec : m.clsSecondary = false)
    (hsSec : s.clsSecondary = true) (hxSub : x.clsSub = true)
    (hL : ∀ q ∈ L, (q.clsSub && q.sns == x.sns) = false) :
    swapMainWithSub ⟨false, [m, s], L ++ x :: R⟩ x.sns =
      ⟨false, [swappedToMain x, s], L ++ swappedToSub m :: R⟩ := by
  have hfind : (L ++ x :: R).findIdx? (fun p => p.clsSub && p.sns == x.sns)
      = some L.length :=
    findIdx?_append_cons _ L R x hL (by rw [hxSub]; simp)
  have hmain : List.findIdx? (fun p => p.clsMain) [m, s] = some 0 := by
    rw [List.findIdx?_cons]
    simp [hmMain]
  have hsec : List.findIdx? (fun p => p.clsSecondary) [swappedToSub m, s] = some 1 := by
    rw [List.findIdx?_cons]
    have h1 : (swappedToSub m).clsSecondary = m.clsSecondary := rfl
    rw [h1, hmSec, List.findIdx?_cons]
    simp [hsSec]
  simp only [swapMainWithSub, swapPanels, hfind, hmain, Bool.false_eq_true, if_false,
    List.getD_cons_zero, getD_append_cons, mainSwapped_eq, subSwapped_eq,
    List.set_cons_zero, set_append_cons, hsec, eraseIdx_append_cons, subViews_reinsert]
  simp [insertBeforeIdx]


lemma subMatch_false_of_ne {q : Panel} {t : String} (h : q.sns ≠ t) :
    (q.clsSub && q.sns == t) = false := by
  simp [beq_eq_false_iff_ne.mpr h]

/-- C8 counterexample: on the built-in arrangement, naming "x" twice does
not return to the pre-swap arrangement — the second call is a no-op
because "x" is then the Main panel, not a Sub panel. -/
theorem double_swap_counterexample :
    currentArrangement builtinDom = ["youtube", "tiktok", "x", "instagram", "threads"] ∧
    currentArrangement (swapMainWithSub (swapMainWithSub builtinDom "x") "x")
      = ["x", "tiktok", "youtube", "instagram", "threads"] ∧
    currentArrangement (swapMainWithSub (swapMainWithSub builtinDom "x") "x")
      ≠ currentArrangement builtinDom := by
  decide

/-- C8 amended: naming `x` a second time is a silent no-op (the document
state does not change at all), while naming the displaced former Main
site returns the document — hence the arrangement — to its exact pre-swap
state. -/
theorem swap_then_swap_restores (dom : Dom) (m s x : Panel) (L R : List Panel)
    (hdom : dom = ⟨false, [m, s], L ++ x :: R⟩)
    (hm : m = mkMainPanel m.sns) (hx : x = mkSubPanel x.sns)
    (hsSec : s.clsSecondary = true)
    (hmx : m.sns ≠ x.sns)
    (hL : ∀ q ∈ L, q.sns ≠ x.sns ∧ q.sns ≠ m.sns)
    (hR : ∀ q ∈ R, q.sns ≠ x.sns) :
    swapMainWithSub (swapMainWithSub dom x.sns) x.sns = swapMainWithSub dom x.sns ∧
    swapMainWithSub (swapMainWithSub dom x.sns) m.sns = dom := by
  subst hdom
  have hmMain : m.clsMain = true := by rw [hm]; rfl
  have hmSec : m.clsSecondary = false := by rw [hm]; rfl
  have hxSub : x.clsSub = true := by rw [hx]; rfl
  have hxSec : x.clsSecondary = false := by rw [hx]; rfl
  have h1 : swapMainWithSub ⟨false, [m, s], L ++ x :: R⟩ x.sns =
      ⟨false, [swappedToMain x, s], L ++ swappedToSub m :: R⟩ :=
    swapMainWithSub_std m s x L R hmMain hmSec hsSec hxSub
      (fun q hq => subMatch_false_of_ne (hL q hq).1)
  have h2 : swapMainWithSub ⟨false, [swappedToMain x, s], L ++ swappedToSub m :: R⟩ m.sns =
      ⟨false, [swappedToMain (swappedToSub m), s], L ++ swappedToSub (swappedToMain x) :: R⟩ :=
    swapMainWithSub_std (swappedToMain x) s (swappedToSub m) L R rfl hxSec hsSec rfl
      (fun q hq => subMatch_false_of_ne (hL q hq).2)
  have hrm : swappedToMain (swappedToSub m) = m := by rw [hm]; rfl
  have hrx : swappedToSub (swappedToMain x) = x := by rw [hx]; rfl
  constructor
  · rw [h1]
    have hnone : (L ++ swappedToSub m :: R).findIdx?
        (fun p => p.clsSub && p.sns == x.sns) = none := by
      apply findIdx?_eq_none_of_all_false
      intro q hq
      rcases List.mem_append.mp hq with hqL | hqx
      · exact subMatch_false_of_ne (hL q hqL).1
      · rcases List.mem_cons.mp hqx with hq1 | hqR
        · subst hq1
          exact subMatch_false_of_ne (fun hc => hmx hc)
        · exact subMatch_false_of_ne (hR q hqR)
    simp only [swapMainWithSub, hnone]
  · rw [h1, h2, hrm, hrx]


/-- Witness for the amended C8 on the built-in arrangement. -/
theorem swap_then_swap_restores_witness :
    swapMainWithSub (swapMainWithSub builtinDom "x") "x" = swapMainWithSub builtinDom "x" ∧
    swapMainWithSub (swapMainWithSub builtinDom "x") "youtube" = builtinDom :=
  swap_then_swap_restores builtinDom (mkMainPanel "youtube") (mkSecondaryPanel "tiktok")
    (mkSubPanel "x") [] [mkSubPanel "instagram", mkSubPanel "threads"]
    rfl rfl rfl rfl (by decide) (by simp) (by decide)


end MultiSnsViewer
